import Mathlib

/-!
Shallow embedding of the inference-instance-admin repository's core:
the `InferenceInstance` / `InferenceInstanceHistory` data model
(`src/models.py`), the `InstanceService` and `HistoryService` operations
(`src/services/instance_service.py`, `src/services/history_service.py`)
and the SQLAlchemy error mapping (`src/services/exceptions.py`).

Modelling conventions:
* The database is explicit state (`DB`); every service call returns its
  result together with the database state as durably committed when the
  call returns.  `session.commit()` points in the source are the points
  where the explicit state is advanced; `session.rollback()` can only
  discard changes made since the last commit, so state already committed
  earlier in the same call survives an error.
* Wall-clock times (`datetime.utcnow`, `func.now()`) are modelled as a
  `now : Nat` parameter supplied per call; nothing constrains successive
  calls to use increasing values, matching a real wall clock.
* Auto-increment primary keys are modelled by `nextId` / `nextHistoryId`
  counters in the state.
* `priorities` and `envs` are plain `Column(JSON)` columns (no
  `MutableList` wrapper), so an *in-place* element assignment such as
  `instance.priorities[0] = value` is invisible to the SQLAlchemy unit of
  work: it is not flushed at commit, and `session.refresh` reloads the
  stored value.  A whole-attribute assignment (`setattr` /
  `instance.priorities = [...]`) is tracked and flushed.  The embedding
  of `InstanceService.update` reflects this.
* A storage failure while `HistoryService.save_history` commits is
  modelled by the boolean `historyCommitFails` parameter of
  `InstanceService.create`; all other theorems use `false` (no fault).
-/

/-- models.py `Status` enumeration values (`[s.value for s in Status]`). -/
def validStatuses : List String := ["active", "inactive", "pending", "error"]

/-- models.py `Priority` enumeration values (`[p.value for p in Priority]`). -/
def validPriorities : List String := ["high", "normal", "low", "very_low"]

/-- models.py `OperationType` enumeration. -/
inductive OperationType where
  | create
  | update
  | delete
  | rollback
deriving Repr, DecidableEq

/-- `OperationType.value` — the string stored in the `operation_type` column. -/
def OperationType.value : OperationType → String
  | .create => "create"
  | .update => "update"
  | .delete => "delete"
  | .rollback => "rollback"

/-- models.py: the model-level default for the `priorities` JSON column. -/
def defaultPriorities : List String := ["high", "normal", "low", "very_low"]

/-- models.py `InferenceInstance` row.  `envs` entries are opaque strings;
`fps`, `checkpoint_path`, `nonce`, `celery_task_concurrency` are nullable
columns, hence `Option`.  Timestamps are `Nat`. -/
structure InferenceInstance where
  id : Nat
  name : String
  model_name : String
  model_version : String
  pipeline_mode : String
  quant_mode : Bool
  distill_mode : Bool
  m405_mode : Bool
  fps : Option Int
  checkpoint_path : Option String
  cluster_name : String
  image_tag : String
  nonce : Option String
  pp : Int
  cp : Int
  tp : Int
  n_workers : Int
  replicas : Int
  priorities : List String
  envs : List String
  desc : String
  separate_video_encode : Bool
  separate_video_decode : Bool
  separate_t5_encode : Bool
  ephemeral : Bool
  ephemeral_min_period_seconds : Int
  ephemeral_to : String
  ephemeral_from : String
  vae_store_type : String
  t5_store_type : String
  enable_cuda_graph : Bool
  task_concurrency : Int
  celery_task_concurrency : Option Int
  status : String
  created_at : Nat
  updated_at : Nat
deriving Repr, DecidableEq

/-- models.py `InferenceInstanceHistory` row: history metadata plus a
field-for-field snapshot of the `InferenceInstance` columns. -/
structure InferenceInstanceHistory where
  history_id : Nat
  original_id : Nat
  operation_type : String
  operation_timestamp : Nat
  name : String
  model_name : String
  model_version : String
  pipeline_mode : String
  quant_mode : Bool
  distill_mode : Bool
  m405_mode : Bool
  fps : Option Int
  checkpoint_path : Option String
  cluster_name : String
  image_tag : String
  nonce : Option String
  pp : Int
  cp : Int
  tp : Int
  n_workers : Int
  replicas : Int
  priorities : List String
  envs : List String
  desc : String
  separate_video_encode : Bool
  separate_video_decode : Bool
  separate_t5_encode : Bool
  ephemeral : Bool
  ephemeral_min_period_seconds : Int
  ephemeral_to : String
  ephemeral_from : String
  vae_store_type : String
  t5_store_type : String
  enable_cuda_graph : Bool
  task_concurrency : Int
  celery_task_concurrency : Option Int
  status : String
  created_at : Nat
  updated_at : Nat
deriving Repr, DecidableEq

/-- models.py `InferenceInstanceHistory.from_instance`: field-for-field copy
of the instance, tagged with the operation type.  The database assigns
`history_id` (autoincrement primary key) and `operation_timestamp`
(column default `func.now()`) at insert time; they are passed explicitly
here because the embedding has no implicit session. -/
def InferenceInstanceHistory.from_instance
    (hid : Nat) (ts : Nat) (inst : InferenceInstance) (op : OperationType) :
    InferenceInstanceHistory :=
  { history_id := hid
    original_id := inst.id
    operation_type := op.value
    operation_timestamp := ts
    name := inst.name
    model_name := inst.model_name
    model_version := inst.model_version
    pipeline_mode := inst.pipeline_mode
    quant_mode := inst.quant_mode
    distill_mode := inst.distill_mode
    m405_mode := inst.m405_mode
    fps := inst.fps
    checkpoint_path := inst.checkpoint_path
    cluster_name := inst.cluster_name
    image_tag := inst.image_tag
    nonce := inst.nonce
    pp := inst.pp
    cp := inst.cp
    tp := inst.tp
    n_workers := inst.n_workers
    replicas := inst.replicas
    priorities := inst.priorities
    envs := inst.envs
    desc := inst.desc
    separate_video_encode := inst.separate_video_encode
    separate_video_decode := inst.separate_video_decode
    separate_t5_encode := inst.separate_t5_encode
    ephemeral := inst.ephemeral
    ephemeral_min_period_seconds := inst.ephemeral_min_period_seconds
    ephemeral_to := inst.ephemeral_to
    ephemeral_from := inst.ephemeral_from
    vae_store_type := inst.vae_store_type
    t5_store_type := inst.t5_store_type
    enable_cuda_graph := inst.enable_cuda_graph
    task_concurrency := inst.task_concurrency
    celery_task_concurrency := inst.celery_task_concurrency
    status := inst.status
    created_at := inst.created_at
    updated_at := inst.updated_at }

/-- The durable database state: the two tables plus the autoincrement
counters for their primary keys. -/
structure DB where
  instances : List InferenceInstance
  history : List InferenceInstanceHistory
  nextId : Nat
  nextHistoryId : Nat
deriving Repr, DecidableEq

/-- Fresh database (both autoincrement counters start at 1, as in SQLite). -/
def emptyDB : DB := { instances := [], history := [], nextId := 1, nextHistoryId := 1 }

/-- exceptions.py instance-side error taxonomy (`InstanceError` subclasses).
`conflict` carries the optional `conflicting_field` detail, `operation`
carries the optional `operation` and `cause` details. -/
inductive InstErr where
  | notFound (message : String)
  | validation (message : String)
  | conflict (message : String) (conflicting_field : Option String)
  | operation (message : String) (op : Option String) (cause : Option String)
deriving Repr, DecidableEq

/-- exceptions.py history-side error taxonomy (`HistoryError` subclasses). -/
inductive HistErr where
  | notFound (message : String)
  | operation (message : String) (op : Option String) (cause : Option String)
deriving Repr, DecidableEq

/-- Equality of `Except` results is decidable (needed to evaluate the
theorems' concrete result checks). -/
instance {ε α : Type} [DecidableEq ε] [DecidableEq α] : DecidableEq (Except ε α) :=
  fun x y =>
    match x, y with
    | Except.ok a, Except.ok b =>
        if h : a = b then isTrue (by rw [h])
        else isFalse (by intro he; cases he; exact h rfl)
    | Except.error a, Except.error b =>
        if h : a = b then isTrue (by rw [h])
        else isFalse (by intro he; cases he; exact h rfl)
    | Except.ok _, Except.error _ => isFalse (by intro he; cases he)
    | Except.error _, Except.ok _ => isFalse (by intro he; cases he)

/-- Helper for the substring test: `needle` occurs in `hay`. -/
def listHasInfix (needle : List Char) : List Char → Bool
  | [] => needle.isEmpty
  | c :: rest => needle.isPrefixOf (c :: rest) || listHasInfix needle rest

/-- Python `sub in s` substring test. -/
def containsSubstr (s sub : String) : Bool :=
  listHasInfix sub.toList s.toList

/-- Python `s.lower()` (character-by-character `Char.toLower`). -/
def lowerString (s : String) : String :=
  String.mk (s.data.map Char.toLower)

/-- exceptions.py `map_sqlalchemy_error`: classify a database error by
substring tests on the lowercased error string. -/
def map_sqlalchemy_error (errorStr : String) (operation : Option String) : InstErr :=
  let e := lowerString errorStr
  if containsSubstr e "unique constraint" || containsSubstr e "duplicate key" then
    InstErr.conflict "Instance with this value already exists"
      (if containsSubstr e "name" then some "name" else none)
  else if containsSubstr e "not null constraint" || containsSubstr e "null value" then
    InstErr.validation "Required field cannot be null"
  else if containsSubstr e "foreign key constraint" then
    InstErr.validation "Invalid reference to related entity"
  else
    InstErr.operation "Database operation failed" operation (some errorStr)

/-- The message of the `IntegrityError` SQLite raises when the UNIQUE
constraint on `inference_instances.name` is violated at commit. -/
def uniqueNameViolationMsg : String :=
  "UNIQUE constraint failed: inference_instances.name"

/-- The create-call input dictionary (`instance_data`).  Every key that
`InstanceService.create` or its validators read is a field; `none` means
the key is absent.  `priorities` and `priority_list` are carried because
a caller may supply them, although `create` never reads them;
`priority` is read only by `_validate_field_constraints`. -/
structure CreateData where
  name : Option String
  model_name : Option String
  cluster_name : Option String
  image_tag : Option String
  model_version : Option String
  pipeline_mode : Option String
  quant_mode : Option Bool
  distill_mode : Option Bool
  m405_mode : Option Bool
  fps : Option Int
  checkpoint_path : Option String
  nonce : Option String
  pp : Option Int
  cp : Option Int
  tp : Option Int
  n_workers : Option Int
  replicas : Option Int
  envs : Option (List String)
  description : Option String
  separate_video_encode : Option Bool
  separate_video_decode : Option Bool
  separate_t5_encode : Option Bool
  ephemeral : Option Bool
  ephemeral_min_period_seconds : Option Int
  ephemeral_to : Option String
  ephemeral_from : Option String
  vae_store_type : Option String
  t5_store_type : Option String
  enable_cuda_graph : Option Bool
  task_concurrency : Option Int
  celery_task_concurrency : Option Int
  status : Option String
  priority : Option String
  priorities : Option (List String)
  priority_list : Option (List String)
deriving Repr, DecidableEq

/-- A `CreateData` with every key absent. -/
def CreateData.empty : CreateData :=
  { name := none, model_name := none, cluster_name := none, image_tag := none
    model_version := none, pipeline_mode := none, quant_mode := none
    distill_mode := none, m405_mode := none, fps := none, checkpoint_path := none
    nonce := none, pp := none, cp := none, tp := none, n_workers := none
    replicas := none, envs := none, description := none
    separate_video_encode := none, separate_video_decode := none
    separate_t5_encode := none, ephemeral := none
    ephemeral_min_period_seconds := none, ephemeral_to := none
    ephemeral_from := none, vae_store_type := none, t5_store_type := none
    enable_cuda_graph := none, task_concurrency := none
    celery_task_concurrency := none, status := none, priority := none
    priorities := none, priority_list := none }

/-- The update-call input dictionary (`update_data`).  `id` and
`created_at` can be supplied (and are rejected by validation). -/
structure UpdateData where
  id : Option Nat
  created_at : Option Nat
  name : Option String
  model_name : Option String
  cluster_name : Option String
  image_tag : Option String
  model_version : Option String
  pipeline_mode : Option String
  quant_mode : Option Bool
  distill_mode : Option Bool
  m405_mode : Option Bool
  fps : Option Int
  checkpoint_path : Option String
  nonce : Option String
  pp : Option Int
  cp : Option Int
  tp : Option Int
  n_workers : Option Int
  replicas : Option Int
  envs : Option (List String)
  description : Option String
  separate_video_encode : Option Bool
  separate_video_decode : Option Bool
  separate_t5_encode : Option Bool
  ephemeral : Option Bool
  ephemeral_min_period_seconds : Option Int
  ephemeral_to : Option String
  ephemeral_from : Option String
  vae_store_type : Option String
  t5_store_type : Option String
  enable_cuda_graph : Option Bool
  task_concurrency : Option Int
  celery_task_concurrency : Option Int
  status : Option String
  priority : Option String
  priorities : Option (List String)
deriving Repr, DecidableEq

/-- An `UpdateData` with every key absent. -/
def UpdateData.empty : UpdateData :=
  { id := none, created_at := none, name := none, model_name := none
    cluster_name := none, image_tag := none, model_version := none
    pipeline_mode := none, quant_mode := none, distill_mode := none
    m405_mode := none, fps := none, checkpoint_path := none, nonce := none
    pp := none, cp := none, tp := none, n_workers := none, replicas := none
    envs := none, description := none, separate_video_encode := none
    separate_video_decode := none, separate_t5_encode := none
    ephemeral := none, ephemeral_min_period_seconds := none
    ephemeral_to := none, ephemeral_from := none, vae_store_type := none
    t5_store_type := none, enable_cuda_graph := none, task_concurrency := none
    celery_task_concurrency := none, status := none, priority := none
    priorities := none }

/-- Python truthiness check used as `if field in data and data[field]`:
present and non-empty. -/
def presentNonEmpty (v : Option String) : Bool :=
  match v with
  | none => false
  | some s => !(s.isEmpty)

/-- String-length constraint from `_validate_field_constraints`: checked
only when the value is present and truthy. -/
def stringLenViolation (v : Option String) (maxLen : Nat) : Bool :=
  presentNonEmpty v && (v.getD "").length > maxLen

/-- Integer constraint from `_validate_field_constraints`: checked when
present (`is not None`); fails when the value is `< 1`. -/
def intFieldViolation (v : Option Int) : Bool :=
  match v with
  | none => false
  | some n => n < 1

/-- `InstanceService._validate_field_constraints` on create data: string
length limits, positive-integer checks on `replicas`/`pp`/`cp`/`tp`
(note: `n_workers` is *not* in the `integer_fields` list in the source),
and enum checks for `status` and `priority`.  Returns the first error the
source would raise, in the source's check order, or `none`. -/
def validate_field_constraints
    (name model_name cluster_name image_tag model_version status priority :
      Option String)
    (replicas pp cp tp : Option Int) : Option InstErr :=
  if stringLenViolation name 255 then
    some (InstErr.validation "Field 'name' exceeds maximum length of 255")
  else if stringLenViolation model_name 255 then
    some (InstErr.validation "Field 'model_name' exceeds maximum length of 255")
  else if stringLenViolation cluster_name 255 then
    some (InstErr.validation "Field 'cluster_name' exceeds maximum length of 255")
  else if stringLenViolation image_tag 255 then
    some (InstErr.validation "Field 'image_tag' exceeds maximum length of 255")
  else if stringLenViolation model_version 50 then
    some (InstErr.validation "Field 'model_version' exceeds maximum length of 50")
  else if stringLenViolation status 50 then
    some (InstErr.validation "Field 'status' exceeds maximum length of 50")
  else if stringLenViolation priority 20 then
    some (InstErr.validation "Field 'priority' exceeds maximum length of 20")
  else if intFieldViolation replicas then
    some (InstErr.validation "Field 'replicas' must be a positive integer")
  else if intFieldViolation pp then
    some (InstErr.validation "Field 'pp' must be a positive integer")
  else if intFieldViolation cp then
    some (InstErr.validation "Field 'cp' must be a positive integer")
  else if intFieldViolation tp then
    some (InstErr.validation "Field 'tp' must be a positive integer")
  else if presentNonEmpty status && !(validStatuses.contains (status.getD "")) then
    some (InstErr.validation "Invalid status")
  else if presentNonEmpty priority && !(validPriorities.contains (priority.getD "")) then
    some (InstErr.validation "Invalid priority")
  else
    none

/-- `InstanceService._validate_create_data`: required fields present and
truthy, then the shared field constraints. -/
def validate_create_data (d : CreateData) : Option InstErr :=
  if !(presentNonEmpty d.name) then
    some (InstErr.validation "Required field 'name' is missing or empty")
  else if !(presentNonEmpty d.model_name) then
    some (InstErr.validation "Required field 'model_name' is missing or empty")
  else if !(presentNonEmpty d.cluster_name) then
    some (InstErr.validation "Required field 'cluster_name' is missing or empty")
  else if !(presentNonEmpty d.image_tag) then
    some (InstErr.validation "Required field 'image_tag' is missing or empty")
  else
    validate_field_constraints d.name d.model_name d.cluster_name d.image_tag
      d.model_version d.status d.priority d.replicas d.pp d.cp d.tp

/-- `InstanceService._validate_update_data`: protected fields rejected,
then the shared field constraints. -/
def validate_update_data (d : UpdateData) : Option InstErr :=
  if d.id.isSome then
    some (InstErr.validation "Field 'id' cannot be updated")
  else if d.created_at.isSome then
    some (InstErr.validation "Field 'created_at' cannot be updated")
  else
    validate_field_constraints d.name d.model_name d.cluster_name d.image_tag
      d.model_version d.status d.priority d.replicas d.pp d.cp d.tp

/-- The `InferenceInstance(...)` constructor call inside
`InstanceService.create`: supplied values with the source's defaults
(`data.get(key, default)`), the model-level column defaults for
`priorities`, and `created_at`/`updated_at` set to the current time.
The new row's `id` is the table's autoincrement value. -/
def buildInstance (newId : Nat) (d : CreateData) (now : Nat) : InferenceInstance :=
  { id := newId
    name := d.name.getD ""
    model_name := d.model_name.getD ""
    cluster_name := d.cluster_name.getD ""
    image_tag := d.image_tag.getD "latest"
    model_version := d.model_version.getD "latest"
    pipeline_mode := d.pipeline_mode.getD "default"
    quant_mode := d.quant_mode.getD false
    distill_mode := d.distill_mode.getD false
    m405_mode := d.m405_mode.getD false
    fps := d.fps
    checkpoint_path := d.checkpoint_path
    nonce := d.nonce
    pp := d.pp.getD 1
    cp := d.cp.getD 8
    tp := d.tp.getD 1
    n_workers := d.n_workers.getD 1
    replicas := d.replicas.getD 1
    priorities := defaultPriorities
    envs := d.envs.getD []
    desc := d.description.getD ""
    separate_video_encode := d.separate_video_encode.getD true
    separate_video_decode := d.separate_video_decode.getD true
    separate_t5_encode := d.separate_t5_encode.getD true
    ephemeral := d.ephemeral.getD false
    ephemeral_min_period_seconds := d.ephemeral_min_period_seconds.getD 300
    ephemeral_to := d.ephemeral_to.getD ""
    ephemeral_from := d.ephemeral_from.getD ""
    vae_store_type := d.vae_store_type.getD "redis"
    t5_store_type := d.t5_store_type.getD "redis"
    enable_cuda_graph := d.enable_cuda_graph.getD false
    task_concurrency := d.task_concurrency.getD 1
    celery_task_concurrency := d.celery_task_concurrency
    status := d.status.getD "active"
    created_at := now
    updated_at := now }

namespace InstanceService

/-- `InstanceService.get_by_id`: first row with the given primary key. -/
def get_by_id (db : DB) (instance_id : Nat) : Option InferenceInstance :=
  db.instances.find? (fun i => i.id == instance_id)

/-- `InstanceService.get_by_name`: first row with the given name. -/
def get_by_name (db : DB) (name : String) : Option InferenceInstance :=
  db.instances.find? (fun i => i.name == name)

end InstanceService

namespace HistoryService

/-- `HistoryService.save_history`: build the snapshot with
`InferenceInstanceHistory.from_instance`, insert and commit.  The database
assigns `history_id` (next autoincrement value) and `operation_timestamp`
(`func.now()`) at the insert.  `commitFails` injects a storage failure at
the commit: the insert is rolled back and a `HistoryOperationError` is
raised, leaving the database unchanged. -/
def save_history (db : DB) (inst : InferenceInstance) (op : OperationType)
    (now : Nat) (commitFails : Bool) :
    Except HistErr (InferenceInstanceHistory × DB) :=
  let record := InferenceInstanceHistory.from_instance db.nextHistoryId now inst op
  if commitFails then
    Except.error (HistErr.operation "Failed to create history record"
      (some "save_history") (some "storage failure"))
  else
    Except.ok (record,
      { db with history := db.history ++ [record],
                nextHistoryId := db.nextHistoryId + 1 })

/-- The `ORDER BY operation_timestamp DESC, history_id DESC` ordering:
`histOrder a b` means `a` is sorted at or before `b`. -/
def histOrder (a b : InferenceInstanceHistory) : Prop :=
  b.operation_timestamp < a.operation_timestamp ∨
    (a.operation_timestamp = b.operation_timestamp ∧ b.history_id ≤ a.history_id)

instance : DecidableRel histOrder := fun a b =>
  inferInstanceAs (Decidable (b.operation_timestamp < a.operation_timestamp ∨
    (a.operation_timestamp = b.operation_timestamp ∧ b.history_id ≤ a.history_id)))

instance : IsTotal InferenceInstanceHistory histOrder :=
  ⟨by intro a b; unfold histOrder; omega⟩

instance : IsTrans InferenceInstanceHistory histOrder :=
  ⟨by intro a b c; unfold histOrder; omega⟩

/-- `HistoryService.get_history` for one instance, on the path the
verified operations use (no extra filters, no pagination): all records
with the given `original_id`, ordered by
`(operation_timestamp desc, history_id desc)`. -/
def get_history (db : DB) (instance_id : Nat) : List InferenceInstanceHistory :=
  (db.history.filter (fun r => r.original_id == instance_id)).insertionSort histOrder

/-- `HistoryService.get_history_by_id`: first row with the given
`history_id` primary key. -/
def get_history_by_id (db : DB) (history_id : Nat) :
    Option InferenceInstanceHistory :=
  db.history.find? (fun r => r.history_id == history_id)

/-- `HistoryService.count_history` (no extra filters): number of history
rows, optionally restricted to one `original_id`. -/
def count_history (db : DB) (instance_id : Option Nat) : Nat :=
  match instance_id with
  | some oid => (db.history.filter (fun r => r.original_id == oid)).length
  | none => db.history.length

/-- `HistoryService.get_latest_history`: most recent record for the
instance by `(operation_timestamp desc, history_id desc)`, optionally
restricted to one operation type. -/
def get_latest_history (db : DB) (instance_id : Nat)
    (op : Option OperationType) : Option InferenceInstanceHistory :=
  let base := db.history.filter (fun r => r.original_id == instance_id)
  let filtered : List InferenceInstanceHistory :=
    match op with
    | some o => base.filter (fun r => r.operation_type == o.value)
    | none => base
  (filtered.insertionSort histOrder).head?

/-- The adjacent-pair timestamp scan of
`HistoryService.validate_history_integrity`: walking the list returned by
`get_history` (newest first), fail when a record's timestamp is *smaller*
than the timestamp of the record after it in the list
(`if current_timestamp < previous_timestamp: return False`). -/
def chronoScanOK : List InferenceInstanceHistory → Bool
  | a :: b :: rest =>
      !(decide (a.operation_timestamp < b.operation_timestamp)) &&
        chronoScanOK (b :: rest)
  | _ => true

/-- `HistoryService.validate_history_integrity`: re-read the instance's
history via `get_history` (which sorts it newest-first), run the
adjacent-pair timestamp scan on that list, then check that the
`history_id` values are pairwise distinct
(`len(history_ids) != len(set(history_ids))`). -/
def validate_history_integrity (db : DB) (instance_id : Nat) : Bool :=
  let records := get_history db instance_id
  if records.isEmpty then
    true
  else if !(chronoScanOK records) then
    false
  else if !((records.map (fun r => r.history_id)).Nodup : Prop) then
    false
  else
    true

end HistoryService

namespace InstanceService

/-- `InstanceService.create`.  Control flow of the source:
1. `_validate_create_data`; a validation error aborts with nothing written.
2. `session.add(instance); session.commit()` — the UNIQUE constraint on
   `name` fires here: an `IntegrityError` rolls the insert back and is
   translated by `map_sqlalchemy_error`, leaving the database unchanged.
3. On commit success the new row is durable.  Then
   `HistoryService.save_history(session, instance, CREATE)` runs its own
   insert + commit.  If that commit fails, the surrounding `except` block
   calls `session.rollback()` — which cannot undo the commit of step 2 —
   and wraps the `HistoryOperationError` (not an `InstanceError`) into
   `InstanceOperationError("Failed to create instance", ...)`; the
   instance row stays committed with no history record. -/
def create (db : DB) (d : CreateData) (now : Nat) (historyCommitFails : Bool) :
    Except InstErr InferenceInstance × DB :=
  match validate_create_data d with
  | some err => (Except.error err, db)
  | none =>
    let inst := buildInstance db.nextId d now
    if db.instances.any (fun i => i.name == inst.name) then
      (Except.error (map_sqlalchemy_error uniqueNameViolationMsg (some "create")), db)
    else
      let db1 : DB := { db with instances := db.instances ++ [inst],
                                nextId := db.nextId + 1 }
      match HistoryService.save_history db1 inst OperationType.create now
          historyCommitFails with
      | Except.ok (_, db2) => (Except.ok inst, db2)
      | Except.error _ =>
          (Except.error (InstErr.operation "Failed to create instance"
            (some "create") (some "Failed to create history record")), db1)

/-- The field-update loop of `InstanceService.update` applied to the
instance row, as persisted at the final commit.  `id` and `created_at`
never appear (validation already rejected them).  `description` writes
the `desc` column.  For `priority`: when `instance.priorities` is a
non-empty list the source assigns `instance.priorities[0] = value`
*in place*; `priorities` is a plain `Column(JSON)` (no `MutableList`),
so the unit of work never sees the change and the commit does not write
it — the stored list is unchanged.  When the list is empty the source
*assigns* a fresh four-element list, which is tracked and persisted.
All other supplied fields are plain tracked attribute assignments. -/
def applyPatch (inst : InferenceInstance) (p : UpdateData) : InferenceInstance :=
  { inst with
    name := p.name.getD inst.name
    model_name := p.model_name.getD inst.model_name
    cluster_name := p.cluster_name.getD inst.cluster_name
    image_tag := p.image_tag.getD inst.image_tag
    model_version := p.model_version.getD inst.model_version
    pipeline_mode := p.pipeline_mode.getD inst.pipeline_mode
    quant_mode := p.quant_mode.getD inst.quant_mode
    distill_mode := p.distill_mode.getD inst.distill_mode
    m405_mode := p.m405_mode.getD inst.m405_mode
    fps := match p.fps with | some v => some v | none => inst.fps
    checkpoint_path :=
      match p.checkpoint_path with | some v => some v | none => inst.checkpoint_path
    nonce := match p.nonce with | some v => some v | none => inst.nonce
    pp := p.pp.getD inst.pp
    cp := p.cp.getD inst.cp
    tp := p.tp.getD inst.tp
    n_workers := p.n_workers.getD inst.n_workers
    replicas := p.replicas.getD inst.replicas
    envs := p.envs.getD inst.envs
    desc := p.description.getD inst.desc
    separate_video_encode := p.separate_video_encode.getD inst.separate_video_encode
    separate_video_decode := p.separate_video_decode.getD inst.separate_video_decode
    separate_t5_encode := p.separate_t5_encode.getD inst.separate_t5_encode
    ephemeral := p.ephemeral.getD inst.ephemeral
    ephemeral_min_period_seconds :=
      p.ephemeral_min_period_seconds.getD inst.ephemeral_min_period_seconds
    ephemeral_to := p.ephemeral_to.getD inst.ephemeral_to
    ephemeral_from := p.ephemeral_from.getD inst.ephemeral_from
    vae_store_type := p.vae_store_type.getD inst.vae_store_type
    t5_store_type := p.t5_store_type.getD inst.t5_store_type
    enable_cuda_graph := p.enable_cuda_graph.getD inst.enable_cuda_graph
    task_concurrency := p.task_concurrency.getD inst.task_concurrency
    celery_task_concurrency :=
      match p.celery_task_concurrency with
      | some v => some v | none => inst.celery_task_concurrency
    status := p.status.getD inst.status
    priorities :=
      match p.priorities with
      | some v => v          -- direct `setattr` of the whole list: tracked
      | none =>
        match p.priority with
        | some v =>
          if inst.priorities.length > 0 then
            inst.priorities  -- in-place `priorities[0] = v`: not flushed
          else
            [v, "normal", "low", "very_low"]
        | none => inst.priorities }

/-- Whether the patch dirties any tracked attribute, so that the final
commit emits an UPDATE statement (and the `onupdate` hook refreshes
`updated_at`).  The in-place `priorities[0]` write is the one untracked
case. -/
def patchTracked (inst : InferenceInstance) (p : UpdateData) : Bool :=
  p.name.isSome || p.model_name.isSome || p.cluster_name.isSome ||
  p.image_tag.isSome || p.model_version.isSome || p.pipeline_mode.isSome ||
  p.quant_mode.isSome || p.distill_mode.isSome || p.m405_mode.isSome ||
  p.fps.isSome || p.checkpoint_path.isSome || p.nonce.isSome ||
  p.pp.isSome || p.cp.isSome || p.tp.isSome || p.n_workers.isSome ||
  p.replicas.isSome || p.envs.isSome || p.description.isSome ||
  p.separate_video_encode.isSome || p.separate_video_decode.isSome ||
  p.separate_t5_encode.isSome || p.ephemeral.isSome ||
  p.ephemeral_min_period_seconds.isSome || p.ephemeral_to.isSome ||
  p.ephemeral_from.isSome || p.vae_store_type.isSome ||
  p.t5_store_type.isSome || p.enable_cuda_graph.isSome ||
  p.task_concurrency.isSome || p.celery_task_concurrency.isSome ||
  p.status.isSome || p.priorities.isSome ||
  (p.priority.isSome && inst.priorities.length == 0)

/-- `InstanceService.update`.  Control flow of the source:
1. `get_by_id`; absent → `InstanceNotFoundError`, nothing written.
2. `_validate_update_data`; failure → `InstanceValidationError`, nothing
   written.
3. `HistoryService.save_history(session, instance, UPDATE)` snapshots the
   *pre-patch* row and commits it on its own.
4. The field loop patches the row, then `session.commit()`.  A UNIQUE
   violation on a renamed `name` fires here; the rollback undoes only the
   patch — the history record of step 3 is already committed. -/
def update (db : DB) (instance_id : Nat) (p : UpdateData) (now : Nat) :
    Except InstErr InferenceInstance × DB :=
  match get_by_id db instance_id with
  | none =>
      (Except.error (InstErr.notFound
        "Instance with the given ID not found"), db)
  | some inst =>
    match validate_update_data p with
    | some err => (Except.error err, db)
    | none =>
      match HistoryService.save_history db inst OperationType.update now false with
      | Except.error _ =>
          -- unreachable with `commitFails = false`; kept for shape
          (Except.error (InstErr.operation "Failed to update instance"
            (some "update") none), db)
      | Except.ok (_, db1) =>
        let patched := applyPatch inst p
        let newInst :=
          if patchTracked inst p then { patched with updated_at := now } else patched
        if db1.instances.any (fun o => o.name == newInst.name && o.id != inst.id) then
          (Except.error (map_sqlalchemy_error uniqueNameViolationMsg (some "update")),
            db1)
        else
          (Except.ok newInst,
            { db1 with instances :=
                db1.instances.map (fun o => if o.id == inst.id then newInst else o) })

/-- `InstanceService.delete`.  Control flow of the source:
1. `get_by_id`; absent → returns `False`, nothing written.
2. `HistoryService.save_history(session, instance, DELETE)` snapshots the
   row and commits.
3. `session.delete(instance); session.commit()` removes the row (by
   primary key) and returns `True`. -/
def delete (db : DB) (instance_id : Nat) (now : Nat) :
    Except InstErr Bool × DB :=
  match get_by_id db instance_id with
  | none => (Except.ok false, db)
  | some inst =>
    match HistoryService.save_history db inst OperationType.delete now false with
    | Except.error _ =>
        (Except.error (InstErr.operation "Failed to delete instance"
          (some "delete") none), db)
    | Except.ok (_, db1) =>
        (Except.ok true,
          { db1 with instances :=
              db1.instances.filter (fun o => !(o.id == inst.id)) })

/-- The numbered-suffix loop of `InstanceService._generate_copy_name`:
try `{base_name}copy{counter}`, increment, and raise
`InstanceOperationError` once the counter passes 1000 (the source's
`if counter > 1000` guard runs after the increment, so counters 1..1000
are tried).  `remaining` is the number of increments still allowed,
`1000 - counter`, making the recursion structural. -/
def generateCopyNameLoop (db : DB) (base_name : String) :
    Nat → Nat → Except InstErr String
  | counter, remaining =>
    let copy_name := base_name ++ "copy" ++ toString counter
    if (get_by_name db copy_name).isSome then
      match remaining with
      | 0 =>
          Except.error (InstErr.operation
            "Unable to generate unique copy name after 1000 attempts" none none)
      | r + 1 => generateCopyNameLoop db base_name (counter + 1) r
    else
      Except.ok copy_name

/-- `InstanceService._generate_copy_name`: `{base_name}copy` if free,
otherwise the numbered loop starting at counter 1 (with 999 increments
left before the 1000-attempt guard fires). -/
def generate_copy_name (db : DB) (base_name : String) : Except InstErr String :=
  let copy_name := base_name ++ "copy"
  if (get_by_name db copy_name).isSome then
    generateCopyNameLoop db base_name 1 999
  else
    Except.ok copy_name

end InstanceService

/-- An API-level mutation request, as dispatched to `InstanceService`. -/
inductive Op where
  | createOp (d : CreateData) (now : Nat)
  | updateOp (instance_id : Nat) (p : UpdateData) (now : Nat)
  | deleteOp (instance_id : Nat) (now : Nat)
deriving Repr, DecidableEq

/-- The database state after one request (faults disabled). -/
def applyOp (db : DB) : Op → DB
  | Op.createOp d now => (InstanceService.create db d now false).2
  | Op.updateOp i p now => (InstanceService.update db i p now).2
  | Op.deleteOp i now => (InstanceService.delete db i now).2

/-- The database state after a sequence of requests. -/
def runOps (db : DB) (ops : List Op) : DB :=
  ops.foldl applyOp db

/-- Whether a request, issued in state `db`, succeeds: create/update
return a value, delete returns `True` (a row existed). -/
def opOk (db : DB) : Op → Bool
  | Op.createOp d now =>
      match (InstanceService.create db d now false).1 with
      | Except.ok _ => true | Except.error _ => false
  | Op.updateOp i p now =>
      match (InstanceService.update db i p now).1 with
      | Except.ok _ => true | Except.error _ => false
  | Op.deleteOp i now =>
      match (InstanceService.delete db i now).1 with
      | Except.ok b => b | Except.error _ => false

/-- Whether a request, issued in state `db`, addresses the instance with
id `target` (a create addresses the id the new row will receive). -/
def opTargets (db : DB) (target : Nat) : Op → Bool
  | Op.createOp _ _ => db.nextId == target
  | Op.updateOp i _ _ => i == target
  | Op.deleteOp i _ => i == target

/-- All requests in the sequence succeed, each in the state produced by
its predecessors. -/
def opsAllOk (db : DB) : List Op → Bool
  | [] => true
  | op :: rest => opOk db op && opsAllOk (applyOp db op) rest

/-- The number of requests in the sequence that succeed and address
instance `target` (evaluated along the run). -/
def succCountFor (db : DB) (target : Nat) : List Op → Nat
  | [] => 0
  | op :: rest =>
      (if opOk db op && opTargets db target op then 1 else 0) +
        succCountFor (applyOp db op) target rest

/-- The create payload of the spec's scenario:
`{name:"svc-a", model_name:"m1", cluster_name:"c1", image_tag:"v1"}`. -/
def svcAData : CreateData :=
  { CreateData.empty with
    name := some "svc-a", model_name := some "m1",
    cluster_name := some "c1", image_tag := some "v1" }

/-- The scenario's update payload `{status:"inactive"}`. -/
def statusInactivePatch : UpdateData :=
  { UpdateData.empty with status := some "inactive" }

/-- The update payload `{priority:"low"}`. -/
def priorityLowPatch : UpdateData :=
  { UpdateData.empty with priority := some "low" }

/-- State after the scenario's create (`svc-a` gets id 1) at time 10. -/
def scenarioDB1 : DB := (InstanceService.create emptyDB svcAData 10 false).2

/-- State after the scenario's update `{status:"inactive"}` at time 20. -/
def scenarioDB2 : DB := (InstanceService.update scenarioDB1 1 statusInactivePatch 20).2

/-- State after the scenario's delete at time 30. -/
def scenarioDB3 : DB := (InstanceService.delete scenarioDB2 1 30).2

/-- The scenario as an `Op` sequence. -/
def scenarioOps : List Op :=
  [Op.createOp svcAData 10, Op.updateOp 1 statusInactivePatch 20,
   Op.deleteOp 1 30]

/-- A database in which the history of instance 1 was written by a create
at wall-clock time 10 followed by an update whose wall clock read 5
(the clock stepped backwards between the two requests). -/
def clockSkewDB : DB :=
  runOps emptyDB [Op.createOp svcAData 10, Op.updateOp 1 statusInactivePatch 5]

/-- Modelled from the spec: the integrity property the spec's
`validate_integrity` sentence describes — reading the subject's stored
history in chronological (insertion) order, the operation timestamps are
non-decreasing and no `history_id` value repeats. -/
def specHistoryIntegrity (db : DB) (instance_id : Nat) : Prop :=
  List.Pairwise (fun a b => a.operation_timestamp ≤ b.operation_timestamp)
      (db.history.filter (fun r => r.original_id == instance_id)) ∧
  ((db.history.filter (fun r => r.original_id == instance_id)).map
      (fun r => r.history_id)).Nodup

/-- `specHistoryIntegrity` is decidable, so concrete databases can be
checked by evaluation. -/
instance (db : DB) (instance_id : Nat) :
    Decidable (specHistoryIntegrity db instance_id) :=
  inferInstanceAs (Decidable
    (List.Pairwise
        (fun a b : InferenceInstanceHistory =>
          a.operation_timestamp ≤ b.operation_timestamp)
        (db.history.filter (fun r => r.original_id == instance_id)) ∧
      ((db.history.filter
            (fun r : InferenceInstanceHistory => r.original_id == instance_id)).map
          (fun r : InferenceInstanceHistory => r.history_id)).Nodup))

/-- Candidate names `_generate_copy_name` tries, in order: `{base}copy`,
then `{base}copy1` … `{base}copy1000`. -/
def copyCandidates (base : String) : List String :=
  (base ++ "copy") :: (List.range' 1 1000).map (fun i => base ++ "copy" ++ toString i)

/-- A database whose instance names include `foo` and `foocopy`. -/
def fooDB : DB :=
  (InstanceService.create
    ((InstanceService.create emptyDB
        { CreateData.empty with
          name := some "foo", model_name := some "m1",
          cluster_name := some "c1", image_tag := some "v1" } 1 false).2)
    { CreateData.empty with
      name := some "foocopy", model_name := some "m1",
      cluster_name := some "c1", image_tag := some "v1" } 2 false).2

/-- Strictly-decreasing `(operation_timestamp, history_id)` order: `a`
comes strictly before `b` in a "most recent first" listing. -/
def histAfter (a b : InferenceInstanceHistory) : Prop :=
  b.operation_timestamp < a.operation_timestamp ∨
    (a.operation_timestamp = b.operation_timestamp ∧ b.history_id < a.history_id)

/-- Well-formedness the real store guarantees for the history table:
`history_id` values are strictly increasing in insertion order, and all
are below the autoincrement counter. -/
def HistWF (db : DB) : Prop :=
  List.Pairwise (fun a b => a.history_id < b.history_id) db.history ∧
  ∀ r ∈ db.history, r.history_id < db.nextHistoryId

/-- Number of history rows for one `original_id`, in storage. -/
def countFor (target : Nat) (db : DB) : Nat :=
  (db.history.filter (fun r => r.original_id == target)).length

/-- A create payload whose `pp` is 0 (invalid: must be ≥ 1). -/
def ppZeroData : CreateData := { svcAData with pp := some 0 }

/-- A create payload whose `n_workers` is 0 (the spec calls this invalid,
but the service's `integer_fields` list does not include `n_workers`). -/
def nWorkersZeroData : CreateData := { svcAData with n_workers := some 0 }

/-- A create payload carrying `priority:"bogus"`, an invalid enum value. -/
def bogusPriorityData : CreateData := { svcAData with priority := some "bogus" }

/-- The instance row `svc-a` as stored right after the scenario's create. -/
def svcAInstance : InferenceInstance := buildInstance 1 svcAData 10

/-- The instance row `svc-a` as stored after the scenario's update
(status `inactive`, `updated_at` refreshed to 20). -/
def svcAInstance2 : InferenceInstance :=
  { svcAInstance with status := "inactive", updated_at := 20 }

/-- An update payload whose `replicas` is 0 (invalid: must be ≥ 1). -/
def replicasZeroPatch : UpdateData := { UpdateData.empty with replicas := some 0 }

/-- C1: the claim says a failed history append rolls the create back.  In
the source, `InstanceService.create` runs `session.commit()` *before*
`HistoryService.save_history`; when the history append's commit fails,
the subsequent rollback cannot undo the already-committed insert.  On the
valid input `svc-a` with a failing history commit, the call errors yet
the database holds the new instance row with an empty history table — the
observable state the claim says can never exist. -/
theorem create_history_append_failure_orphans_instance :
    (InstanceService.create emptyDB svcAData 10 true).1 =
      Except.error (InstErr.operation "Failed to create instance"
        (some "create") (some "Failed to create history record")) ∧
    (InstanceService.create emptyDB svcAData 10 true).2.instances.map
      (fun i => i.name) = ["svc-a"] ∧
    (InstanceService.create emptyDB svcAData 10 true).2.history = [] ∧
    HistoryService.count_history (InstanceService.create emptyDB svcAData 10 true).2
      (some 1) = 0 := by decide

/-- C5: the claim says updating with `priority="low"` persists a
`priority_list` whose first element is `"low"`.  The source's update path
assigns `instance.priorities[0] = value` in place on a plain JSON column,
which the SQLAlchemy unit of work does not track, so nothing is flushed:
on an instance stored with the default `["high","normal","low","very_low"]`
the update returns success, yet the stored row's first priority is still
`"high"` and the returned instance is the unchanged stored row. -/
theorem priority_update_is_not_persisted :
    (InstanceService.update scenarioDB1 1 priorityLowPatch 20).1 =
      Except.ok svcAInstance ∧
    svcAInstance.priorities = ["high", "normal", "low", "very_low"] ∧
    (InstanceService.update scenarioDB1 1 priorityLowPatch 20).2.instances.map
      (fun i => i.priorities.head?) = [some "high"] := by decide

/-- C8 (counterexample): the claim says any create input with
`n_workers < 1` fails with a `ValidationError` and writes no row.  The
service's `integer_fields` list is `['replicas','pp','cp','tp']` —
`n_workers` is absent — so a create with `n_workers = 0` succeeds and
writes the row. -/
theorem create_accepts_nonpositive_n_workers :
    (InstanceService.create emptyDB nWorkersZeroData 5 false).1 =
      Except.ok (buildInstance 1 nWorkersZeroData 5) ∧
    (buildInstance 1 nWorkersZeroData 5).n_workers = 0 ∧
    (InstanceService.create emptyDB nWorkersZeroData 5 false).2.instances.length
      = 1 := by decide

/-- C9 (counterexample): the claim says `validate_history_integrity`
returns `True` iff the stored history's timestamps are non-decreasing in
insertion order (and ids unique).  In a database where the clock stepped
backwards between a create (time 10) and an update (time 5), the stored
insertion-order timestamps decrease, yet the function returns `True`:
it re-reads the history through `get_history`, which re-sorts by
`(timestamp desc, history_id desc)`, so its timestamp scan cannot fail. -/
theorem validate_integrity_misses_insertion_order_violation :
    ¬ (HistoryService.validate_history_integrity clockSkewDB 1 = true ↔
        specHistoryIntegrity clockSkewDB 1) := by decide

/-- C10 (counterexample): the claim says any supplied `priority` value is
silently ignored by create.  A `priority` value is ignored for row
construction but *is* validated: the same valid payload succeeds without
it, yet with `priority:"bogus"` the create fails with a
`ValidationError` — not silent ignoring. -/
theorem create_validates_rather_than_ignores_priority :
    (InstanceService.create emptyDB svcAData 10 false).1 =
      Except.ok svcAInstance ∧
    (InstanceService.create emptyDB bogusPriorityData 10 false).1 =
      Except.error (InstErr.validation "Invalid priority") ∧
    (InstanceService.create emptyDB bogusPriorityData 10 false).2 = emptyDB := by
  decide

/-- Helper: the numbered-suffix loop returns the first free candidate
among `{base}copy{k} … {base}copy{k+r}`, or the 1000-attempt error when
every one is taken. -/
theorem generateCopyNameLoop_finds_first_free (db : DB) (base : String) :
    ∀ (r k : Nat), InstanceService.generateCopyNameLoop db base k r =
      match ((List.range' k (r+1)).map (fun i => base ++ "copy" ++ toString i)).find?
          (fun n => (InstanceService.get_by_name db n).isNone) with
      | some n => Except.ok n
      | none => Except.error (InstErr.operation
          "Unable to generate unique copy name after 1000 attempts" none none) := by
  intro r
  induction r with
  | zero =>
    intro k
    simp only [InstanceService.generateCopyNameLoop, List.range'_one, List.map_cons,
      List.map_nil, List.find?_cons, List.find?_nil]
    cases h : InstanceService.get_by_name db (base ++ "copy" ++ toString k) with
    | some v => simp [h]
    | none => simp [h]
  | succ r ih =>
    intro k
    rw [List.range'_succ]
    simp only [List.map_cons, List.find?_cons]
    cases h : InstanceService.get_by_name db (base ++ "copy" ++ toString k) with
    | some v =>
      have hc : InstanceService.generateCopyNameLoop db base k (r+1) =
          InstanceService.generateCopyNameLoop db base (k+1) r := by
        simp [InstanceService.generateCopyNameLoop, h]
      rw [hc, ih (k+1)]
      simp [h]
    | none =>
      simp [InstanceService.generateCopyNameLoop, h]

/-- C7: with `new_name` omitted, the generated copy name is the first
name not present in the store among `{base}copy`, `{base}copy1`, …,
`{base}copy1000`, and when none of those is free the call fails with the
1000-attempt `InstanceOperationError`; in particular, copying `foo` when
`foocopy` is already taken yields `foocopy1`. -/
theorem copy_name_is_first_free_candidate (db : DB) (base : String) :
    (InstanceService.generate_copy_name db base =
      match (copyCandidates base).find?
          (fun n => (InstanceService.get_by_name db n).isNone) with
      | some n => Except.ok n
      | none => Except.error (InstErr.operation
          "Unable to generate unique copy name after 1000 attempts" none none)) ∧
    InstanceService.generate_copy_name fooDB "foo" = Except.ok "foocopy1" := by
  constructor
  · unfold copyCandidates
    simp only [List.find?_cons]
    cases h : InstanceService.get_by_name db (base ++ "copy") with
    | some v =>
      have hl : InstanceService.generate_copy_name db base =
          InstanceService.generateCopyNameLoop db base 1 999 := by
        simp [InstanceService.generate_copy_name, h]
      rw [hl, generateCopyNameLoop_finds_first_free db base 999 1]
      simp [h]
    | none =>
      simp [InstanceService.generate_copy_name, h]
  · decide

/-- Helper: the adjacent-pair timestamp scan accepts any list that is
sorted by `(operation_timestamp desc, history_id desc)`. -/
theorem chronoScanOK_of_pairwise :
    ∀ l : List InferenceInstanceHistory, List.Pairwise HistoryService.histOrder l →
      HistoryService.chronoScanOK l = true
  | [], _ => rfl
  | [_], _ => rfl
  | a :: b :: t, h => by
    have hab : HistoryService.histOrder a b := (List.pairwise_cons.mp h).1 b (by simp)
    have ht : List.Pairwise HistoryService.histOrder (b :: t) := (List.pairwise_cons.mp h).2
    have hrest := chronoScanOK_of_pairwise (b :: t) ht
    have hts : ¬ (a.operation_timestamp < b.operation_timestamp) := by
      unfold HistoryService.histOrder at hab; omega
    simp [HistoryService.chronoScanOK, hrest, hts]

/-- C9 (amended): `validate_history_integrity` returns `True` iff the
instance's stored history has no duplicate `history_id`; its timestamp
scan runs on the list re-sorted by `(timestamp desc, history_id desc)`
and therefore never rejects, and on a duplicate-id violation it returns
`False` rather than raising. -/
theorem validate_history_integrity_iff_nodup (db : DB) (instance_id : Nat) :
    HistoryService.validate_history_integrity db instance_id = true ↔
    ((db.history.filter (fun r => r.original_id == instance_id)).map
        (fun r => r.history_id)).Nodup := by
  have hperm : List.Perm (HistoryService.get_history db instance_id)
      (db.history.filter (fun r => r.original_id == instance_id)) :=
    List.perm_insertionSort _ _
  have hsorted : List.Pairwise HistoryService.histOrder
      (HistoryService.get_history db instance_id) :=
    List.sorted_insertionSort _ _
  have hscan := chronoScanOK_of_pairwise _ hsorted
  have hnodup : ((HistoryService.get_history db instance_id).map
        (fun r => r.history_id)).Nodup ↔
      ((db.history.filter (fun r => r.original_id == instance_id)).map
        (fun r => r.history_id)).Nodup :=
    (hperm.map _).nodup_iff
  unfold HistoryService.validate_history_integrity
  by_cases he : (HistoryService.get_history db instance_id).isEmpty
  · have hnil : HistoryService.get_history db instance_id = [] :=
      List.isEmpty_iff.mp he
    have hbase : db.history.filter (fun r => r.original_id == instance_id) = [] := by
      have hp := hperm
      rw [hnil] at hp
      exact (hp.nil_eq).symm
    simp [he, hnil, hbase]
  · simp only [he, if_false, hscan, Bool.not_true, Bool.false_eq_true]
    by_cases hn : ((HistoryService.get_history db instance_id).map
        (fun r => r.history_id)).Nodup
    · simp [hn, hnodup.mp hn]
    · simp [hn]
      exact fun hc => hn (hnodup.mpr hc)

/-- Helper: a successful `create` implies the input validated, the name
was free, the returned instance is the built row, and the committed
database gained exactly that row plus its `create` history record. -/
theorem create_ok_elim (db : DB) (d : CreateData) (now : Nat)
    (inst : InferenceInstance) (db' : DB)
    (h : InstanceService.create db d now false = (Except.ok inst, db')) :
    validate_create_data d = none ∧
    inst = buildInstance db.nextId d now ∧
    db.instances.any (fun i => i.name == inst.name) = false ∧
    db' = { db with
      instances := db.instances ++ [inst],
      history := db.history ++
        [InferenceInstanceHistory.from_instance db.nextHistoryId now inst
          OperationType.create],
      nextId := db.nextId + 1,
      nextHistoryId := db.nextHistoryId + 1 } := by
  unfold InstanceService.create at h
  cases hv : validate_create_data d with
  | some err => rw [hv] at h; simp at h
  | none =>
    rw [hv] at h
    dsimp only at h
    cases ha : db.instances.any
        (fun i => i.name == (buildInstance db.nextId d now).name) with
    | true => rw [ha] at h; simp at h
    | false =>
      rw [ha] at h
      simp only [HistoryService.save_history, Bool.false_eq_true, if_false,
        Prod.mk.injEq, Except.ok.injEq] at h
      obtain ⟨hi, hdb⟩ := h
      refine ⟨rfl, hi.symm, ?_, ?_⟩
      · rw [hi] at ha; exact ha
      · rw [← hdb, hi]

/-- Helper: `map_sqlalchemy_error` turns the UNIQUE-name `IntegrityError`
message into a `ConflictError` carrying `conflicting_field = "name"`,
whatever the operation context. -/
theorem map_unique_name_eval (o : Option String) :
    map_sqlalchemy_error uniqueNameViolationMsg o =
      InstErr.conflict "Instance with this value already exists" (some "name") := by
  have h1 : containsSubstr (lowerString uniqueNameViolationMsg)
      "unique constraint" = true := by decide
  have h2 : containsSubstr (lowerString uniqueNameViolationMsg) "name" = true := by
    decide
  simp [map_sqlalchemy_error, h1, h2]

/-- C4: after a successful create, a second create with the same name
(and otherwise valid data) fails with a `ConflictError` that names the
conflicting field `name` — not a generic failure — leaves the database
unchanged, and the instance table holds exactly one row with that name. -/
theorem second_create_with_same_name_conflicts
    (db db1 : DB) (d1 d2 : CreateData) (now1 now2 : Nat) (inst : InferenceInstance)
    (h1 : InstanceService.create db d1 now1 false = (Except.ok inst, db1))
    (hname : d2.name = d1.name)
    (hv2 : validate_create_data d2 = none) :
    (InstanceService.create db1 d2 now2 false).1 =
      Except.error (InstErr.conflict "Instance with this value already exists"
        (some "name")) ∧
    (InstanceService.create db1 d2 now2 false).2 = db1 ∧
    (db1.instances.filter (fun i => i.name == inst.name)).length = 1 := by
  obtain ⟨hv1, hinst, hfree, hdb1⟩ := create_ok_elim db d1 now1 inst db1 h1
  have hn2 : (buildInstance db1.nextId d2 now2).name = inst.name := by
    rw [hinst]; simp [buildInstance, hname]
  have hmem : inst ∈ db1.instances := by rw [hdb1]; simp
  have hany : db1.instances.any
      (fun i => i.name == (buildInstance db1.nextId d2 now2).name) = true := by
    rw [List.any_eq_true]
    exact ⟨inst, hmem, by rw [hn2]; exact beq_self_eq_true _⟩
  have hcreate : InstanceService.create db1 d2 now2 false =
      (Except.error (map_sqlalchemy_error uniqueNameViolationMsg (some "create")),
        db1) := by
    unfold InstanceService.create
    rw [hv2]
    dsimp only
    rw [hany]
    simp
  refine ⟨?_, ?_, ?_⟩
  · rw [hcreate, map_unique_name_eval]
  · rw [hcreate]
  · have hnone : ∀ i ∈ db.instances, ¬ ((i.name == inst.name) = true) := by
      intro i hi
      have hne := List.any_eq_false.mp hfree i hi
      simpa using hne
    rw [hdb1]
    simp only [List.filter_append]
    rw [List.filter_eq_nil_iff.mpr hnone]
    simp

/-- C4 witness: both creates of `svc-a` run concretely; the second
conflicts on `name` and exactly one `svc-a` row remains. -/
theorem second_create_with_same_name_conflicts_witness :
    (InstanceService.create scenarioDB1 svcAData 11 false).1 =
      Except.error (InstErr.conflict "Instance with this value already exists"
        (some "name")) ∧
    (InstanceService.create scenarioDB1 svcAData 11 false).2 = scenarioDB1 ∧
    (scenarioDB1.instances.filter (fun i => i.name == svcAInstance.name)).length
      = 1 :=
  second_create_with_same_name_conflicts emptyDB scenarioDB1 svcAData svcAData 10 11
    svcAInstance (by decide) rfl (by decide)

/-- C2: on an existing instance with a valid patch (and no rename
conflict), `update` succeeds and appends exactly one history record with
`operation_type = "update"` whose snapshot carries the instance's field
values as they were *before* the patch — including `status`, so an
`active → inactive` update snapshots `"active"`. -/
theorem update_appends_one_preimage_snapshot
    (db : DB) (instance_id : Nat) (p : UpdateData) (now : Nat)
    (inst : InferenceInstance)
    (hfind : InstanceService.get_by_id db instance_id = some inst)
    (hval : validate_update_data p = none)
    (hnoconf : db.instances.any
      (fun o => o.name == p.name.getD inst.name && o.id != inst.id) = false) :
    (InstanceService.update db instance_id p now).1.isOk = true ∧
    (InstanceService.update db instance_id p now).2.history =
      db.history ++ [InferenceInstanceHistory.from_instance db.nextHistoryId now inst
        OperationType.update] ∧
    (InferenceInstanceHistory.from_instance db.nextHistoryId now inst
        OperationType.update).operation_type = "update" ∧
    (InferenceInstanceHistory.from_instance db.nextHistoryId now inst
        OperationType.update).original_id = inst.id ∧
    (InferenceInstanceHistory.from_instance db.nextHistoryId now inst
        OperationType.update).operation_timestamp = now ∧
    (InferenceInstanceHistory.from_instance db.nextHistoryId now inst
        OperationType.update).name = inst.name ∧
    (InferenceInstanceHistory.from_instance db.nextHistoryId now inst
        OperationType.update).model_name = inst.model_name ∧
    (InferenceInstanceHistory.from_instance db.nextHistoryId now inst
        OperationType.update).model_version = inst.model_version ∧
    (InferenceInstanceHistory.from_instance db.nextHistoryId now inst
        OperationType.update).cluster_name = inst.cluster_name ∧
    (InferenceInstanceHistory.from_instance db.nextHistoryId now inst
        OperationType.update).image_tag = inst.image_tag ∧
    (InferenceInstanceHistory.from_instance db.nextHistoryId now inst
        OperationType.update).pp = inst.pp ∧
    (InferenceInstanceHistory.from_instance db.nextHistoryId now inst
        OperationType.update).cp = inst.cp ∧
    (InferenceInstanceHistory.from_instance db.nextHistoryId now inst
        OperationType.update).tp = inst.tp ∧
    (InferenceInstanceHistory.from_instance db.nextHistoryId now inst
        OperationType.update).n_workers = inst.n_workers ∧
    (InferenceInstanceHistory.from_instance db.nextHistoryId now inst
        OperationType.update).replicas = inst.replicas ∧
    (InferenceInstanceHistory.from_instance db.nextHistoryId now inst
        OperationType.update).priorities = inst.priorities ∧
    (InferenceInstanceHistory.from_instance db.nextHistoryId now inst
        OperationType.update).envs = inst.envs ∧
    (InferenceInstanceHistory.from_instance db.nextHistoryId now inst
        OperationType.update).desc = inst.desc ∧
    (InferenceInstanceHistory.from_instance db.nextHistoryId now inst
        OperationType.update).status = inst.status ∧
    (InferenceInstanceHistory.from_instance db.nextHistoryId now inst
        OperationType.update).created_at = inst.created_at ∧
    (InferenceInstanceHistory.from_instance db.nextHistoryId now inst
        OperationType.update).updated_at = inst.updated_at := by
  have hn : (if InstanceService.patchTracked inst p then
        { InstanceService.applyPatch inst p with updated_at := now }
      else InstanceService.applyPatch inst p).name = p.name.getD inst.name := by
    cases hq : InstanceService.patchTracked inst p <;>
      simp [InstanceService.applyPatch]
  have hu : InstanceService.update db instance_id p now =
      (Except.ok (if InstanceService.patchTracked inst p then
          { InstanceService.applyPatch inst p with updated_at := now }
        else InstanceService.applyPatch inst p),
       { db with
         history := db.history ++
           [InferenceInstanceHistory.from_instance db.nextHistoryId now inst
             OperationType.update],
         nextHistoryId := db.nextHistoryId + 1,
         instances := db.instances.map (fun o =>
           if o.id == inst.id then
             (if InstanceService.patchTracked inst p then
               { InstanceService.applyPatch inst p with updated_at := now }
             else InstanceService.applyPatch inst p)
           else o) }) := by
    unfold InstanceService.update
    rw [hfind, hval]
    dsimp only
    simp only [HistoryService.save_history, Bool.false_eq_true, if_false]
    simp only [hn, hnoconf, Bool.false_eq_true, if_false]
  rw [hu]
  exact ⟨rfl, rfl, rfl, rfl, rfl, rfl, rfl, rfl, rfl, rfl, rfl, rfl, rfl, rfl,
    rfl, rfl, rfl, rfl, rfl, rfl, rfl⟩

/-- C2 witness: the scenario's `{status:"inactive"}` update of `svc-a`
runs concretely; the appended record snapshots the prior
`status = "active"`. -/
theorem update_appends_one_preimage_snapshot_witness :
    svcAInstance.status = "active" ∧
    ((InstanceService.update scenarioDB1 1 statusInactivePatch 20).1.isOk = true ∧
     (InstanceService.update scenarioDB1 1 statusInactivePatch 20).2.history =
       scenarioDB1.history ++
         [InferenceInstanceHistory.from_instance scenarioDB1.nextHistoryId 20
           svcAInstance OperationType.update] ∧
     (InferenceInstanceHistory.from_instance scenarioDB1.nextHistoryId 20
         svcAInstance OperationType.update).operation_type = "update" ∧
     (InferenceInstanceHistory.from_instance scenarioDB1.nextHistoryId 20
         svcAInstance OperationType.update).original_id = svcAInstance.id ∧
     (InferenceInstanceHistory.from_instance scenarioDB1.nextHistoryId 20
         svcAInstance OperationType.update).operation_timestamp = 20 ∧
     (InferenceInstanceHistory.from_instance scenarioDB1.nextHistoryId 20
         svcAInstance OperationType.update).name = svcAInstance.name ∧
     (InferenceInstanceHistory.from_instance scenarioDB1.nextHistoryId 20
         svcAInstance OperationType.update).model_name = svcAInstance.model_name ∧
     (InferenceInstanceHistory.from_instance scenarioDB1.nextHistoryId 20
         svcAInstance OperationType.update).model_version
       = svcAInstance.model_version ∧
     (InferenceInstanceHistory.from_instance scenarioDB1.nextHistoryId 20
         svcAInstance OperationType.update).cluster_name
       = svcAInstance.cluster_name ∧
     (InferenceInstanceHistory.from_instance scenarioDB1.nextHistoryId 20
         svcAInstance OperationType.update).image_tag = svcAInstance.image_tag ∧
     (InferenceInstanceHistory.from_instance scenarioDB1.nextHistoryId 20
         svcAInstance OperationType.update).pp = svcAInstance.pp ∧
     (InferenceInstanceHistory.from_instance scenarioDB1.nextHistoryId 20
         svcAInstance OperationType.update).cp = svcAInstance.cp ∧
     (InferenceInstanceHistory.from_instance scenarioDB1.nextHistoryId 20
         svcAInstance OperationType.update).tp = svcAInstance.tp ∧
     (InferenceInstanceHistory.from_instance scenarioDB1.nextHistoryId 20
         svcAInstance OperationType.update).n_workers = svcAInstance.n_workers ∧
     (InferenceInstanceHistory.from_instance scenarioDB1.nextHistoryId 20
         svcAInstance OperationType.update).replicas = svcAInstance.replicas ∧
     (InferenceInstanceHistory.from_instance scenarioDB1.nextHistoryId 20
         svcAInstance OperationType.update).priorities = svcAInstance.priorities ∧
     (InferenceInstanceHistory.from_instance scenarioDB1.nextHistoryId 20
         svcAInstance OperationType.update).envs = svcAInstance.envs ∧
     (InferenceInstanceHistory.from_instance scenarioDB1.nextHistoryId 20
         svcAInstance OperationType.update).desc = svcAInstance.desc ∧
     (InferenceInstanceHistory.from_instance scenarioDB1.nextHistoryId 20
         svcAInstance OperationType.update).status = svcAInstance.status ∧
     (InferenceInstanceHistory.from_instance scenarioDB1.nextHistoryId 20
         svcAInstance OperationType.update).created_at = svcAInstance.created_at ∧
     (InferenceInstanceHistory.from_instance scenarioDB1.nextHistoryId 20
         svcAInstance OperationType.update).updated_at = svcAInstance.updated_at) :=
  ⟨by decide,
   update_appends_one_preimage_snapshot scenarioDB1 1 statusInactivePatch 20
     svcAInstance (by decide) (by decide) (by decide)⟩

/-- C6: deleting an existing instance returns `True`, removes only that
instance row, and appends exactly one `delete` history record; every
previously written history record is still present afterwards, and after
the create → update → delete scenario the history count for id 1 is 3. -/
theorem delete_removes_row_appends_delete_record
    (db : DB) (instance_id : Nat) (now : Nat) (inst : InferenceInstance)
    (hfind : InstanceService.get_by_id db instance_id = some inst) :
    (InstanceService.delete db instance_id now).1 = Except.ok true ∧
    (InstanceService.delete db instance_id now).2.instances =
      db.instances.filter (fun o => !(o.id == inst.id)) ∧
    (InstanceService.delete db instance_id now).2.history =
      db.history ++ [InferenceInstanceHistory.from_instance db.nextHistoryId now inst
        OperationType.delete] ∧
    (InferenceInstanceHistory.from_instance db.nextHistoryId now inst
        OperationType.delete).operation_type = "delete" ∧
    (∀ r ∈ db.history, r ∈ (InstanceService.delete db instance_id now).2.history) ∧
    HistoryService.count_history scenarioDB3 (some 1) = 3 := by
  have hd : InstanceService.delete db instance_id now =
      (Except.ok true, { db with
        instances := db.instances.filter (fun o => !(o.id == inst.id)),
        history := db.history ++
          [InferenceInstanceHistory.from_instance db.nextHistoryId now inst
            OperationType.delete],
        nextHistoryId := db.nextHistoryId + 1 }) := by
    unfold InstanceService.delete
    rw [hfind]
    simp [HistoryService.save_history]
  rw [hd]
  refine ⟨rfl, rfl, rfl, rfl, ?_, by decide⟩
  intro r hr
  exact List.mem_append_left _ hr

/-- C6 witness: the scenario's delete of `svc-a` (status already
`inactive`, two history records written) runs concretely. -/
theorem delete_removes_row_appends_delete_record_witness :
    (InstanceService.delete scenarioDB2 1 30).1 = Except.ok true ∧
    (InstanceService.delete scenarioDB2 1 30).2.instances =
      scenarioDB2.instances.filter (fun o => !(o.id == svcAInstance2.id)) ∧
    (InstanceService.delete scenarioDB2 1 30).2.history =
      scenarioDB2.history ++
        [InferenceInstanceHistory.from_instance scenarioDB2.nextHistoryId 30
          svcAInstance2 OperationType.delete] ∧
    (InferenceInstanceHistory.from_instance scenarioDB2.nextHistoryId 30
        svcAInstance2 OperationType.delete).operation_type = "delete" ∧
    (∀ r ∈ scenarioDB2.history, r ∈ (InstanceService.delete scenarioDB2 1 30).2.history) ∧
    HistoryService.count_history scenarioDB3 (some 1) = 3 :=
  delete_removes_row_appends_delete_record scenarioDB2 1 30 svcAInstance2 (by decide)

/-- Helper: every error `_validate_field_constraints` produces is an
`InstanceValidationError`. -/
theorem vfc_only_validation_errors
    (n mn cn it mv st pr : Option String) (rep pp cp tp : Option Int) (e : InstErr)
    (h : validate_field_constraints n mn cn it mv st pr rep pp cp tp = some e) :
    ∃ m, e = InstErr.validation m := by
  unfold validate_field_constraints at h
  by_cases hc1 : stringLenViolation n 255 = true
  · rw [if_pos hc1] at h; injection h with hx; exact ⟨_, hx.symm⟩
  rw [if_neg hc1] at h
  by_cases hc2 : stringLenViolation mn 255 = true
  · rw [if_pos hc2] at h; injection h with hx; exact ⟨_, hx.symm⟩
  rw [if_neg hc2] at h
  by_cases hc3 : stringLenViolation cn 255 = true
  · rw [if_pos hc3] at h; injection h with hx; exact ⟨_, hx.symm⟩
  rw [if_neg hc3] at h
  by_cases hc4 : stringLenViolation it 255 = true
  · rw [if_pos hc4] at h; injection h with hx; exact ⟨_, hx.symm⟩
  rw [if_neg hc4] at h
  by_cases hc5 : stringLenViolation mv 50 = true
  · rw [if_pos hc5] at h; injection h with hx; exact ⟨_, hx.symm⟩
  rw [if_neg hc5] at h
  by_cases hc6 : stringLenViolation st 50 = true
  · rw [if_pos hc6] at h; injection h with hx; exact ⟨_, hx.symm⟩
  rw [if_neg hc6] at h
  by_cases hc7 : stringLenViolation pr 20 = true
  · rw [if_pos hc7] at h; injection h with hx; exact ⟨_, hx.symm⟩
  rw [if_neg hc7] at h
  by_cases hc8 : intFieldViolation rep = true
  · rw [if_pos hc8] at h; injection h with hx; exact ⟨_, hx.symm⟩
  rw [if_neg hc8] at h
  by_cases hc9 : intFieldViolation pp = true
  · rw [if_pos hc9] at h; injection h with hx; exact ⟨_, hx.symm⟩
  rw [if_neg hc9] at h
  by_cases hc10 : intFieldViolation cp = true
  · rw [if_pos hc10] at h; injection h with hx; exact ⟨_, hx.symm⟩
  rw [if_neg hc10] at h
  by_cases hc11 : intFieldViolation tp = true
  · rw [if_pos hc11] at h; injection h with hx; exact ⟨_, hx.symm⟩
  rw [if_neg hc11] at h
  by_cases hc12 : (presentNonEmpty st && !validStatuses.contains (st.getD "")) = true
  · rw [if_pos hc12] at h; injection h with hx; exact ⟨_, hx.symm⟩
  rw [if_neg hc12] at h
  by_cases hc13 : (presentNonEmpty pr && !validPriorities.contains (pr.getD "")) = true
  · rw [if_pos hc13] at h; injection h with hx; exact ⟨_, hx.symm⟩
  rw [if_neg hc13] at h
  exact Option.noConfusion h

/-- Helper: if any of the checked integer fields (`replicas`, `pp`, `cp`,
`tp`) violates the ≥ 1 constraint, `_validate_field_constraints` reports
an error. -/
theorem vfc_int_violation_rejects
    (n mn cn it mv st pr : Option String) (rep pp cp tp : Option Int)
    (h4 : intFieldViolation rep = true ∨ intFieldViolation pp = true ∨
      intFieldViolation cp = true ∨ intFieldViolation tp = true) :
    ∃ e, validate_field_constraints n mn cn it mv st pr rep pp cp tp = some e := by
  unfold validate_field_constraints
  by_cases hc1 : stringLenViolation n 255 = true
  · rw [if_pos hc1]; exact ⟨_, rfl⟩
  rw [if_neg hc1]
  by_cases hc2 : stringLenViolation mn 255 = true
  · rw [if_pos hc2]; exact ⟨_, rfl⟩
  rw [if_neg hc2]
  by_cases hc3 : stringLenViolation cn 255 = true
  · rw [if_pos hc3]; exact ⟨_, rfl⟩
  rw [if_neg hc3]
  by_cases hc4 : stringLenViolation it 255 = true
  · rw [if_pos hc4]; exact ⟨_, rfl⟩
  rw [if_neg hc4]
  by_cases hc5 : stringLenViolation mv 50 = true
  · rw [if_pos hc5]; exact ⟨_, rfl⟩
  rw [if_neg hc5]
  by_cases hc6 : stringLenViolation st 50 = true
  · rw [if_pos hc6]; exact ⟨_, rfl⟩
  rw [if_neg hc6]
  by_cases hc7 : stringLenViolation pr 20 = true
  · rw [if_pos hc7]; exact ⟨_, rfl⟩
  rw [if_neg hc7]
  by_cases hc8 : intFieldViolation rep = true
  · rw [if_pos hc8]; exact ⟨_, rfl⟩
  rw [if_neg hc8]
  by_cases hc9 : intFieldViolation pp = true
  · rw [if_pos hc9]; exact ⟨_, rfl⟩
  rw [if_neg hc9]
  by_cases hc10 : intFieldViolation cp = true
  · rw [if_pos hc10]; exact ⟨_, rfl⟩
  rw [if_neg hc10]
  by_cases hc11 : intFieldViolation tp = true
  · rw [if_pos hc11]; exact ⟨_, rfl⟩
  rw [if_neg hc11]
  by_cases hc12 : (presentNonEmpty st && !validStatuses.contains (st.getD "")) = true
  · rw [if_pos hc12]; exact ⟨_, rfl⟩
  rw [if_neg hc12]
  by_cases hc13 : (presentNonEmpty pr && !validPriorities.contains (pr.getD "")) = true
  · rw [if_pos hc13]; exact ⟨_, rfl⟩
  rw [if_neg hc13]
  exfalso
  rcases h4 with h|h|h|h <;> contradiction


/-- Helper: a create payload with a nonpositive checked integer field is
rejected by `_validate_create_data` with a validation error. -/
theorem validate_create_data_int_rejects (d : CreateData)
    (h4 : intFieldViolation d.replicas = true ∨ intFieldViolation d.pp = true ∨
      intFieldViolation d.cp = true ∨ intFieldViolation d.tp = true) :
    ∃ m, validate_create_data d = some (InstErr.validation m) := by
  unfold validate_create_data
  by_cases hr1 : (!presentNonEmpty d.name) = true
  · rw [if_pos hr1]; exact ⟨_, rfl⟩
  rw [if_neg hr1]
  by_cases hr2 : (!presentNonEmpty d.model_name) = true
  · rw [if_pos hr2]; exact ⟨_, rfl⟩
  rw [if_neg hr2]
  by_cases hr3 : (!presentNonEmpty d.cluster_name) = true
  · rw [if_pos hr3]; exact ⟨_, rfl⟩
  rw [if_neg hr3]
  by_cases hr4 : (!presentNonEmpty d.image_tag) = true
  · rw [if_pos hr4]; exact ⟨_, rfl⟩
  rw [if_neg hr4]
  obtain ⟨e, he⟩ := vfc_int_violation_rejects d.name d.model_name d.cluster_name
    d.image_tag d.model_version d.status d.priority d.replicas d.pp d.cp d.tp h4
  obtain ⟨m, hm⟩ := vfc_only_validation_errors d.name d.model_name d.cluster_name
    d.image_tag d.model_version d.status d.priority d.replicas d.pp d.cp d.tp e he
  exact ⟨m, by rw [he, hm]⟩

/-- Helper: an update payload with a nonpositive checked integer field is
rejected by `_validate_update_data` with a validation error. -/
theorem validate_update_data_int_rejects (p : UpdateData)
    (h4 : intFieldViolation p.replicas = true ∨ intFieldViolation p.pp = true ∨
      intFieldViolation p.cp = true ∨ intFieldViolation p.tp = true) :
    ∃ m, validate_update_data p = some (InstErr.validation m) := by
  unfold validate_update_data
  by_cases hp1 : p.id.isSome = true
  · rw [if_pos hp1]; exact ⟨_, rfl⟩
  rw [if_neg hp1]
  by_cases hp2 : p.created_at.isSome = true
  · rw [if_pos hp2]; exact ⟨_, rfl⟩
  rw [if_neg hp2]
  obtain ⟨e, he⟩ := vfc_int_violation_rejects p.name p.model_name p.cluster_name
    p.image_tag p.model_version p.status p.priority p.replicas p.pp p.cp p.tp h4
  obtain ⟨m, hm⟩ := vfc_only_validation_errors p.name p.model_name p.cluster_name
    p.image_tag p.model_version p.status p.priority p.replicas p.pp p.cp p.tp e he
  exact ⟨m, by rw [he, hm]⟩

/-- C8 (amended): a create or update (on an existing instance) whose
payload carries `pp`, `cp`, `tp` or `replicas` below 1 fails with a
`ValidationError` and leaves the database unchanged; `n_workers`,
however, is not validated by the service (see the counterexample). -/
theorem nonpositive_resource_ints_rejected :
    (∀ (db : DB) (d : CreateData) (now : Nat) (hcf : Bool) (v : Int),
      v < 1 →
      (d.pp = some v ∨ d.cp = some v ∨ d.tp = some v ∨ d.replicas = some v) →
      ∃ m, InstanceService.create db d now hcf =
        (Except.error (InstErr.validation m), db)) ∧
    (∀ (db : DB) (instance_id : Nat) (p : UpdateData) (now : Nat) (v : Int)
        (inst : InferenceInstance),
      InstanceService.get_by_id db instance_id = some inst →
      v < 1 →
      (p.pp = some v ∨ p.cp = some v ∨ p.tp = some v ∨ p.replicas = some v) →
      ∃ m, InstanceService.update db instance_id p now =
        (Except.error (InstErr.validation m), db)) := by
  constructor
  · intro db d now hcf v hv hor
    have h4 : intFieldViolation d.replicas = true ∨ intFieldViolation d.pp = true ∨
        intFieldViolation d.cp = true ∨ intFieldViolation d.tp = true := by
      rcases hor with h|h|h|h
      · right; left; rw [h]; simp [intFieldViolation]; exact hv
      · right; right; left; rw [h]; simp [intFieldViolation]; exact hv
      · right; right; right; rw [h]; simp [intFieldViolation]; exact hv
      · left; rw [h]; simp [intFieldViolation]; exact hv
    obtain ⟨m, hm⟩ := validate_create_data_int_rejects d h4
    refine ⟨m, ?_⟩
    unfold InstanceService.create
    rw [hm]
  · intro db instance_id p now v inst hfind hv hor
    have h4 : intFieldViolation p.replicas = true ∨ intFieldViolation p.pp = true ∨
        intFieldViolation p.cp = true ∨ intFieldViolation p.tp = true := by
      rcases hor with h|h|h|h
      · right; left; rw [h]; simp [intFieldViolation]; exact hv
      · right; right; left; rw [h]; simp [intFieldViolation]; exact hv
      · right; right; right; rw [h]; simp [intFieldViolation]; exact hv
      · left; rw [h]; simp [intFieldViolation]; exact hv
    obtain ⟨m, hm⟩ := validate_update_data_int_rejects p h4
    refine ⟨m, ?_⟩
    unfold InstanceService.update
    rw [hfind, hm]

/-- C8 (amended) witness: `pp = 0` in a create and `replicas = 0` in an
update are both rejected with validation errors, leaving state intact. -/
theorem nonpositive_resource_ints_rejected_witness :
    (∃ m, InstanceService.create emptyDB ppZeroData 3 false =
      (Except.error (InstErr.validation m), emptyDB)) ∧
    (∃ m, InstanceService.update scenarioDB1 1 replicasZeroPatch 20 =
      (Except.error (InstErr.validation m), scenarioDB1)) :=
  ⟨nonpositive_resource_ints_rejected.1 emptyDB ppZeroData 3 false 0
      (by decide) (Or.inl rfl),
   nonpositive_resource_ints_rejected.2 scenarioDB1 1 replicasZeroPatch 20 0
      svcAInstance (by decide) (by decide) (Or.inr (Or.inr (Or.inr rfl)))⟩

/-- C10 (amended): every successfully created instance has the model
default `priorities` list; `priorities`/`priority_list` keys in the
create payload are ignored entirely (they change nothing about the
call), and a *valid* `priority` value is equally without effect — but
`priority` is still validated, so an invalid value fails the create
(see the counterexample) rather than being silently ignored. -/
theorem created_priorities_always_default :
    (∀ (db : DB) (d : CreateData) (now : Nat) (hcf : Bool)
        (inst : InferenceInstance) (db' : DB),
      InstanceService.create db d now hcf = (Except.ok inst, db') →
      inst.priorities = defaultPriorities) ∧
    (∀ (db : DB) (d : CreateData) (now : Nat) (hcf : Bool)
        (pr pl : Option (List String)),
      InstanceService.create db { d with priorities := pr, priority_list := pl }
          now hcf =
        InstanceService.create db d now hcf) ∧
    (∀ (db : DB) (d : CreateData) (now : Nat) (hcf : Bool) (v : String),
      validPriorities.contains v = true →
      InstanceService.create db { d with priority := some v } now hcf =
        InstanceService.create db { d with priority := none } now hcf) := by
  refine ⟨?_, ?_, ?_⟩
  · intro db d now hcf inst db' h
    unfold InstanceService.create at h
    cases hv : validate_create_data d with
    | some err => rw [hv] at h; simp at h
    | none =>
      rw [hv] at h
      dsimp only at h
      cases ha : db.instances.any
          (fun i => i.name == (buildInstance db.nextId d now).name) with
      | true => rw [ha] at h; simp at h
      | false =>
        rw [ha] at h
        cases hcf with
        | true => simp [HistoryService.save_history] at h
        | false =>
          simp only [HistoryService.save_history, Bool.false_eq_true, if_false,
            Prod.mk.injEq, Except.ok.injEq] at h
          rw [← h.1]
          rfl
  · intro db d now hcf pr pl
    rfl
  · intro db d now hcf v hmem
    have hv : v = "high" ∨ v = "normal" ∨ v = "low" ∨ v = "very_low" := by
      simpa [validPriorities] using hmem
    rcases hv with rfl|rfl|rfl|rfl <;> rfl

/-- C10 (amended) witness: the scenario create yields the default
priorities, and adding a valid `priority:"low"` key to the same payload
does not change the call's outcome. -/
theorem created_priorities_always_default_witness :
    svcAInstance.priorities = defaultPriorities ∧
    InstanceService.create emptyDB { svcAData with priority := some "low" } 10 false =
      InstanceService.create emptyDB { svcAData with priority := none } 10 false :=
  ⟨created_priorities_always_default.1 emptyDB svcAData 10 false svcAInstance
      scenarioDB1 (by decide),
   created_priorities_always_default.2.2 emptyDB svcAData 10 false "low" (by decide)⟩

/-- Helper: a successful request appends exactly one history record,
stamped with the next `history_id` and the id of the instance the
request addressed, and bumps the history counter. -/
theorem applyOp_ok_effect (db : DB) (op : Op) (hok : opOk db op = true) :
    ∃ rec : InferenceInstanceHistory,
      (applyOp db op).history = db.history ++ [rec] ∧
      rec.history_id = db.nextHistoryId ∧
      (applyOp db op).nextHistoryId = db.nextHistoryId + 1 ∧
      ∀ t : Nat, (rec.original_id == t) = opTargets db t op := by
  cases op with
  | createOp d now =>
    simp only [opOk] at hok
    simp only [applyOp]
    unfold InstanceService.create at hok ⊢
    cases hv : validate_create_data d with
    | some err => rw [hv] at hok; simp at hok
    | none =>
      rw [hv] at hok
      dsimp only at hok ⊢
      cases ha : db.instances.any
          (fun i => i.name == (buildInstance db.nextId d now).name) with
      | true => rw [ha] at hok; simp at hok
      | false =>
        rw [ha] at hok
        simp only [HistoryService.save_history, Bool.false_eq_true, if_false] at hok ⊢
        exact ⟨_, rfl, rfl, trivial, fun t => rfl⟩
  | updateOp i p now =>
    simp only [opOk] at hok
    simp only [applyOp]
    unfold InstanceService.update at hok ⊢
    cases hfind : InstanceService.get_by_id db i with
    | none => rw [hfind] at hok; simp at hok
    | some inst =>
      have hid : inst.id = i := by
        have hp := List.find?_some hfind
        simpa using hp
      rw [hfind] at hok
      cases hval : validate_update_data p with
      | some err => rw [hval] at hok; simp at hok
      | none =>
        rw [hval] at hok
        dsimp only at hok ⊢
        simp only [HistoryService.save_history, Bool.false_eq_true, if_false] at hok ⊢
        cases hg : db.instances.any (fun o =>
            o.name == (if InstanceService.patchTracked inst p then
              { InstanceService.applyPatch inst p with updated_at := now }
            else InstanceService.applyPatch inst p).name && o.id != inst.id) with
        | true => rw [hg] at hok; simp at hok
        | false =>
          simp only [Bool.false_eq_true, if_false]
          refine ⟨_, rfl, rfl, trivial, fun t => ?_⟩
          simp only [opTargets]
          rw [show (InferenceInstanceHistory.from_instance db.nextHistoryId now inst
            OperationType.update).original_id = inst.id from rfl, hid]
  | deleteOp i now =>
    simp only [opOk] at hok
    simp only [applyOp]
    unfold InstanceService.delete at hok ⊢
    cases hfind : InstanceService.get_by_id db i with
    | none => rw [hfind] at hok; simp at hok
    | some inst =>
      have hid : inst.id = i := by
        have hp := List.find?_some hfind
        simpa using hp
      simp only [HistoryService.save_history, Bool.false_eq_true, if_false]
      refine ⟨_, rfl, rfl, trivial, fun t => ?_⟩
      simp only [opTargets]
      rw [show (InferenceInstanceHistory.from_instance db.nextHistoryId now inst
        OperationType.delete).original_id = inst.id from rfl, hid]


/-- Helper: a successful request preserves history well-formedness and
grows the per-instance history count by one exactly for its target. -/
theorem applyOp_ok_invariant (db : DB) (op : Op) (hok : opOk db op = true)
    (hwf : HistWF db) :
    HistWF (applyOp db op) ∧
    ∀ t, countFor t (applyOp db op) =
      countFor t db + (if opTargets db t op then 1 else 0) := by
  obtain ⟨rec, hhist, hrid, hnext, htar⟩ := applyOp_ok_effect db op hok
  refine ⟨⟨?_, ?_⟩, ?_⟩
  · rw [hhist, List.pairwise_append]
    refine ⟨hwf.1, by simp, ?_⟩
    intro a ha b hb
    have hb1 : b = rec := by simpa using hb
    rw [hb1, hrid]
    exact hwf.2 a ha
  · intro r hr
    rw [hhist] at hr
    rw [hnext]
    rcases List.mem_append.mp hr with h | h
    · exact Nat.lt_succ_of_lt (hwf.2 r h)
    · have : r = rec := by simpa using h
      rw [this, hrid]
      exact Nat.lt_succ_self _
  · intro t
    unfold countFor
    rw [hhist, List.filter_append, List.length_append]
    congr 1
    rw [List.filter_cons, List.filter_nil, htar t]
    cases opTargets db t op <;> simp

/-- Helper: along a sequence of successful requests, the history stays
well-formed and each instance's stored record count grows by the number
of successful requests addressing it. -/
theorem runOps_invariant (ops : List Op) : ∀ db : DB, opsAllOk db ops = true →
    HistWF db →
    HistWF (runOps db ops) ∧
    ∀ t, countFor t (runOps db ops) = countFor t db + succCountFor db t ops := by
  induction ops with
  | nil =>
    intro db _ hwf
    exact ⟨hwf, fun t => by simp [runOps, succCountFor]⟩
  | cons op rest ih =>
    intro db hall hwf
    simp only [opsAllOk, Bool.and_eq_true] at hall
    obtain ⟨hok, hrest⟩ := hall
    obtain ⟨hwf1, hcnt1⟩ := applyOp_ok_invariant db op hok hwf
    obtain ⟨hwf2, hcnt2⟩ := ih (applyOp db op) hrest hwf1
    have hrun : runOps db (op :: rest) = runOps (applyOp db op) rest := rfl
    refine ⟨by rw [hrun]; exact hwf2, ?_⟩
    intro t
    rw [hrun, hcnt2 t, hcnt1 t]
    simp only [succCountFor, hok, Bool.true_and]
    cases opTargets db t op <;> simp
    all_goals omega

/-- Helper: on a well-formed history, `get_history` returns every stored
record of the instance, in strictly decreasing
`(operation_timestamp, history_id)` order. -/
theorem get_history_complete_and_strictly_sorted (db : DB) (t : Nat)
    (hwf : HistWF db) :
    (HistoryService.get_history db t).length = countFor t db ∧
    List.Pairwise histAfter (HistoryService.get_history db t) := by
  constructor
  · unfold HistoryService.get_history countFor
    exact List.length_insertionSort _ _
  · have hsorted : List.Pairwise HistoryService.histOrder
        (HistoryService.get_history db t) :=
      List.sorted_insertionSort _ _
    have hsub : List.Sublist
        (db.history.filter (fun r => r.original_id == t)) db.history :=
      List.filter_sublist _
    have hlt : List.Pairwise
        (fun a b : InferenceInstanceHistory => a.history_id < b.history_id)
        (db.history.filter (fun r => r.original_id == t)) :=
      List.Pairwise.sublist hsub hwf.1
    have hne : List.Pairwise
        (fun a b : InferenceInstanceHistory => a.history_id ≠ b.history_id)
        (db.history.filter (fun r => r.original_id == t)) :=
      hlt.imp (fun h => Nat.ne_of_lt h)
    have hperm : List.Perm (HistoryService.get_history db t)
        (db.history.filter (fun r => r.original_id == t)) :=
      List.perm_insertionSort _ _
    have hne2 : List.Pairwise
        (fun a b : InferenceInstanceHistory => a.history_id ≠ b.history_id)
        (HistoryService.get_history db t) :=
      (hperm.pairwise_iff (fun h => Ne.symm h)).mpr hne
    have hand := hsorted.and hne2
    exact hand.imp (fun h => by
      obtain ⟨h1, h2⟩ := h
      unfold HistoryService.histOrder at h1
      unfold histAfter
      omega)

/-- C3: starting from an empty database, after any sequence of requests
that all succeed, retrieving an instance's history with no filters
returns exactly N records — N the number of successful
create/update/delete operations on that instance — in strictly
decreasing (i.e. strictly "non-increasing")
`(operation_timestamp, history_id)` order. -/
theorem history_of_ops_complete_and_ordered (ops : List Op) (target : Nat)
    (hall : opsAllOk emptyDB ops = true) :
    (HistoryService.get_history (runOps emptyDB ops) target).length =
      succCountFor emptyDB target ops ∧
    List.Pairwise histAfter
      (HistoryService.get_history (runOps emptyDB ops) target) := by
  have hwf0 : HistWF emptyDB := ⟨List.Pairwise.nil, by intro r hr; cases hr⟩
  obtain ⟨hwf, hcnt⟩ := runOps_invariant ops emptyDB hall hwf0
  obtain ⟨hlen, hsort⟩ :=
    get_history_complete_and_strictly_sorted (runOps emptyDB ops) target hwf
  refine ⟨?_, hsort⟩
  rw [hlen, hcnt target]
  simp [countFor, emptyDB]

/-- C3 witness: the create → update → delete scenario run concretely
(three successful operations on instance 1). -/
theorem history_of_ops_complete_and_ordered_witness :
    (HistoryService.get_history (runOps emptyDB scenarioOps) 1).length =
      succCountFor emptyDB 1 scenarioOps ∧
    List.Pairwise histAfter
      (HistoryService.get_history (runOps emptyDB scenarioOps) 1) :=
  history_of_ops_complete_and_ordered scenarioOps 1 (by decide)
